import Mathlib

/-!
Shallow embedding of `src/cascadia/Remoting/WindowManager.cpp`: the per-process
orchestrator of the monarch/peasant window-coordination protocol. Each member
function of `WindowManager` is translated into a Lean function over an explicit
`WindowManager` state; the external collaborators (the Monarch connection
obtained through COM, the OS process APIs) are modelled as inputs, and every
observable call into a collaborator is recorded in a trace of `Action`s so that
ordering claims can be stated as facts about the emitted trace.
-/

namespace Remoting

/-- Commandline arguments, an opaque value describing argv, the current working
directory and an optional explicit target window (the core never inspects it). -/
structure CommandlineArgs where
  argv : List String
  cwd : String
  target : Option String
deriving DecidableEq, Repr

/-- Modelled from the spec: the Monarch connection held in the `_monarch` field.
The Monarch implementation itself (`Monarch.cpp`) is not among the sources; per
the spec it exposes `GetPID` (the pid of the process owning the live Monarch)
and `ProposeCommandline` (the routing decision for a commandline). -/
structure MonarchConn where
  pid : Nat
  propose : CommandlineArgs → Bool

/-- Observable calls into the external collaborators (COM, the Monarch, the
Peasant, the OS), in the order the code performs them. -/
inductive Action where
  | createInterruptEvent
  | coRegisterClassObject
  | coRevokeClassObject
  | createMonarch
  | traceConnected (monarchPID : Nat) (isKing : Bool)
  | handleActivatePeasant
  | wireFindTargetWindow
  | monarchPropose (args : CommandlineArgs) (result : Bool)
  | createPeasant
  | addPeasant
  | startElectionThread
  | executeCommandline (args : CommandlineArgs)
  | setInterruptEvent
  | joinThread
  | openProcess (pid : Nat)
  | logMonarchDied
  | logWaitInterrupted
  | logTimeout
  | logWaitError (waitResult : Nat)
  | exitProcess
deriving DecidableEq, Repr

/-- The state of a `WindowManager`: its `_monarch` connection, the cached
`_shouldCreateWindow` decision, whether `_peasant` has been instantiated,
whether `_electionThread` is joinable, and the `_registrationHostClass` token. -/
structure WindowManager where
  monarch : MonarchConn
  shouldCreateWindow : Bool
  hasPeasant : Bool
  electionThreadJoinable : Bool
  registrationHostClass : Nat

/-- Source function `WindowManager::_areWeTheKing`: compare the connected
Monarch's pid (`_monarch.GetPID()`) with our own pid (`GetCurrentProcessId()`).
The pid is queried from the connection at the moment of the call; nothing is
cached in the `WindowManager` state. -/
def WindowManager.areWeTheKing (wm : WindowManager) (ourPID : Nat) : Bool :=
  ourPID == wm.monarch.pid

/-- Source function `WindowManager::_createMonarch`: obtain a (possibly fresh)
Monarch instance through the activation registry; which connection comes back
is an environment input. -/
def WindowManager.createMonarch (wm : WindowManager) (newConn : MonarchConn) :
    WindowManager × List Action :=
  ({ wm with monarch := newConn }, [Action.createMonarch])

/-- Source function `WindowManager::_createMonarchAndCallbacks`: connect to the
Monarch, log the connection, inform the Monarch of our last activation when a
peasant exists, and — only when we are the king (the source returns early
otherwise) — wire the `FindTargetWindowRequested` subscription. -/
def WindowManager.createMonarchAndCallbacks (wm : WindowManager) (ourPID : Nat)
    (newConn : MonarchConn) : WindowManager × List Action :=
  let res := wm.createMonarch newConn
  let isKing := res.1.areWeTheKing ourPID
  (res.1,
   res.2 ++ [Action.traceConnected res.1.monarch.pid isKing] ++
     (if res.1.hasPeasant then [Action.handleActivatePeasant] else []) ++
     (if isKing then [Action.wireFindTargetWindow] else []))

/-- Source function `WindowManager::_createOurPeasant`: instantiate the local
Peasant and register it with the Monarch via `AddPeasant`. -/
def WindowManager.createOurPeasant (wm : WindowManager) : WindowManager × List Action :=
  ({ wm with hasPeasant := true }, [Action.createPeasant, Action.addPeasant])

/-- Source function `WindowManager::ProposeCommandline`: if we are king the
decision is `true` without consulting the Monarch (the `||` short-circuits),
otherwise the Monarch decides; on a `true` decision create the peasant, start
the election-watcher thread when not king, and execute the commandline on the
peasant; on a `false` decision do nothing. -/
def WindowManager.ProposeCommandline (wm : WindowManager) (ourPID : Nat)
    (args : CommandlineArgs) : WindowManager × List Action :=
  let isKing := wm.areWeTheKing ourPID
  let delegTrace :=
    if isKing then [] else [Action.monarchPropose args (wm.monarch.propose args)]
  let decision := isKing || wm.monarch.propose args
  let wm1 := { wm with shouldCreateWindow := decision }
  if decision then
    let res := wm1.createOurPeasant
    let wm2 :=
      if !isKing then { res.1 with electionThreadJoinable := true } else res.1
    (wm2,
     delegTrace ++ res.2 ++
       (if !isKing then [Action.startElectionThread] else []) ++
       [Action.executeCommandline args])
  else
    (wm1, delegTrace)

/-- Source function `WindowManager::ShouldCreateWindow`: return the cached
decision. -/
def WindowManager.ShouldCreateWindow (wm : WindowManager) : Bool :=
  wm.shouldCreateWindow

/-- Source function `WindowManager::_electionNight2020`: reconnect to (or
become) the Monarch via `_createMonarchAndCallbacks`, register our peasant with
it via `AddPeasant`, and report whether we are now the king (the watcher thread
exits on `true`). -/
def WindowManager.electionNight2020 (wm : WindowManager) (ourPID : Nat)
    (newConn : MonarchConn) : WindowManager × Bool × List Action :=
  let res := wm.createMonarchAndCallbacks ourPID newConn
  (res.1, res.1.areWeTheKing ourPID, res.2 ++ [Action.addPeasant])

/-- Source constructor `WindowManager::WindowManager`: create the wait-interrupt
event, register as a COM server for the Monarch class (`_registerAsMonarch`),
then connect via `_createMonarchAndCallbacks`. No revocation of a stale
registration happens here. -/
def WindowManager.construct (ourPID : Nat) (conn : MonarchConn)
    (hostClass : Nat) : WindowManager × List Action :=
  let wm0 : WindowManager :=
    { monarch := conn, shouldCreateWindow := false, hasPeasant := false,
      electionThreadJoinable := false, registrationHostClass := hostClass }
  let res := wm0.createMonarchAndCallbacks ourPID conn
  (res.1, [Action.createInterruptEvent, Action.coRegisterClassObject] ++ res.2)

/-- Source destructor `WindowManager::~WindowManager`: revoke the COM
registration first, zero the token, signal the wait interrupt, and join the
election thread only when it is joinable. -/
def WindowManager.destruct (wm : WindowManager) : WindowManager × List Action :=
  ({ wm with registrationHostClass := 0 },
   [Action.coRevokeClassObject, Action.setInterruptEvent] ++
     (if wm.electionThreadJoinable then [Action.joinThread] else []))

/-- Constant WAIT_OBJECT_0 of the Windows wait API. -/
def WAIT_OBJECT_0 : Nat := 0

/-- Constant WAIT_ABANDONED_0 of the Windows wait API. -/
def WAIT_ABANDONED_0 : Nat := 128

/-- Constant WAIT_TIMEOUT of the Windows wait API. -/
def WAIT_TIMEOUT : Nat := 258

/-- Constant WAIT_FAILED of the Windows wait API (as an unsigned 32-bit value). -/
def WAIT_FAILED : Nat := 4294967295

/-- Modelled from the spec: `OpenProcess` on a pid yields a process handle, or a
null handle when the process can no longer be opened; whether it opens is an
environment input. -/
def openProcess (opens : Bool) (pid : Nat) : Option Nat :=
  if opens then some pid else none

/-- Modelled from the spec: the result of `WaitForMultipleObjects` over the
pair (monarch handle, interrupt event) with an INFINITE timeout. Waiting on a
null (invalid) handle fails, returning `WAIT_FAILED`; on a valid handle the OS
reports the signalled index (or an abandonment/failure), chosen by the
environment input `sig`. -/
def osWaitResult (hMonarch : Option Nat) (sig : Nat) : Nat :=
  match hMonarch with
  | none => WAIT_FAILED
  | some _ => sig

/-- Modelled from the spec: the outcomes `WaitForMultipleObjects` can actually
produce for a two-handle wait with an INFINITE timeout — a signalled index, an
abandoned mutex index, or failure; never `WAIT_TIMEOUT` (no timeout is set). -/
def InfiniteWaitOutcome (w : Nat) : Prop :=
  w = WAIT_OBJECT_0 ∨ w = WAIT_OBJECT_0 + 1 ∨
  w = WAIT_ABANDONED_0 ∨ w = WAIT_ABANDONED_0 + 1 ∨ w = WAIT_FAILED

/-- What one iteration of the election-watcher loop does to the thread: loop
again, exit the thread, or terminate the whole process. -/
inductive WatcherOutcome where
  | continueLoop (wm : WindowManager)
  | threadExit (wm : WindowManager)
  | processExit

/-- One iteration of `WindowManager::_waitOnMonarchThread`'s loop: open a handle
to the monarch's process (stored into the wait array unchecked), wait on
(monarch handle, interrupt), then dispatch on the wait result exactly as the
source's `switch` does. `opens` and `sig` are the OS environment inputs and
`newConn` is the connection a re-election would produce. -/
def WindowManager.waitOnMonarchIteration (wm : WindowManager) (ourPID : Nat)
    (opens : Bool) (sig : Nat) (newConn : MonarchConn) :
    WatcherOutcome × List Action :=
  let hMonarch := openProcess opens wm.monarch.pid
  let waitResult := osWaitResult hMonarch sig
  let tr0 := [Action.openProcess wm.monarch.pid]
  if waitResult = WAIT_OBJECT_0 then
    let res := wm.electionNight2020 ourPID newConn
    (if res.2.1 then WatcherOutcome.threadExit res.1 else WatcherOutcome.continueLoop res.1,
     tr0 ++ [Action.logMonarchDied] ++ res.2.2)
  else if waitResult = WAIT_OBJECT_0 + 1 then
    (WatcherOutcome.threadExit wm, tr0 ++ [Action.logWaitInterrupted])
  else if waitResult = WAIT_TIMEOUT then
    (WatcherOutcome.threadExit wm, tr0 ++ [Action.logTimeout])
  else
    (WatcherOutcome.processExit,
     tr0 ++ [Action.logWaitError waitResult, Action.exitProcess])

/-- Result of running the watcher loop against a finite list of environment
inputs: the thread exited, the process exited, or the inputs ran out with the
loop still waiting. -/
inductive LoopResult where
  | threadExit (wm : WindowManager) (tr : List Action)
  | processExit (tr : List Action)
  | pending (wm : WindowManager) (tr : List Action)

/-- `WindowManager::_waitOnMonarchThread`: iterate the watcher loop, feeding it
one environment input (handle-opens flag, wait signal, fresh connection) per
iteration. -/
def waitOnMonarchThread (ourPID : Nat) :
    WindowManager → List (Bool × Nat × MonarchConn) → LoopResult
  | wm, [] => LoopResult.pending wm []
  | wm, (opens, sig, conn) :: rest =>
    match wm.waitOnMonarchIteration ourPID opens sig conn with
    | (WatcherOutcome.continueLoop wm1, tr) =>
      match waitOnMonarchThread ourPID wm1 rest with
      | LoopResult.threadExit wm2 tr2 => LoopResult.threadExit wm2 (tr ++ tr2)
      | LoopResult.processExit tr2 => LoopResult.processExit (tr ++ tr2)
      | LoopResult.pending wm2 tr2 => LoopResult.pending wm2 (tr ++ tr2)
    | (WatcherOutcome.threadExit wm1, tr) => LoopResult.threadExit wm1 tr
    | (WatcherOutcome.processExit, tr) => LoopResult.processExit tr

/-- Discriminator for the `threadExit` outcome of a watcher iteration. -/
def WatcherOutcome.isThreadExit : WatcherOutcome → Bool
  | WatcherOutcome.threadExit _ => true
  | _ => false

/-- Discriminator for `Action.monarchPropose` occurrences in a trace. -/
def Action.isMonarchPropose : Action → Bool
  | Action.monarchPropose _ _ => true
  | _ => false

/-- Discriminator for `Action.executeCommandline` occurrences in a trace. -/
def Action.isExecuteCommandline : Action → Bool
  | Action.executeCommandline _ => true
  | _ => false

/-- Sample commandline arguments used by the concrete witnesses. -/
def argsA : CommandlineArgs := ⟨["wt"], "/a", none⟩

/-- A Monarch connection owned by pid 5 whose decision is always `true`. -/
def connKing : MonarchConn := { pid := 5, propose := fun _ => true }

/-- A Monarch connection owned by pid 9 whose decision is always `false`. -/
def connNo : MonarchConn := { pid := 9, propose := fun _ => false }

/-- A Monarch connection owned by pid 9 whose decision is always `true`. -/
def connYes : MonarchConn := { pid := 9, propose := fun _ => true }

/-- A WindowManager (for a process with pid 5) connected to `connKing`. -/
def wmKing : WindowManager :=
  { monarch := connKing, shouldCreateWindow := false, hasPeasant := false,
    electionThreadJoinable := false, registrationHostClass := 7 }

/-- A WindowManager (for a process with pid 5) connected to `connNo`. -/
def wmSubject : WindowManager :=
  { monarch := connNo, shouldCreateWindow := false, hasPeasant := false,
    electionThreadJoinable := false, registrationHostClass := 7 }

/-- A WindowManager (for a process with pid 5) connected to `connYes`, with a
peasant and a running election thread, as after a `true` proposal. -/
def wmWatcher : WindowManager :=
  { monarch := connYes, shouldCreateWindow := true, hasPeasant := true,
    electionThreadJoinable := true, registrationHostClass := 7 }

/-- C1: when the calling process is king, `ProposeCommandline` sets the
create-window decision to `true` without delegating to the Monarch's
`ProposeCommandline`; when it is not king, the decision is exactly the boolean
the Monarch returns; and `ShouldCreateWindow` subsequently returns that
decision. -/
theorem C1_proposeCommandline_decision (wm : WindowManager) (ourPID : Nat)
    (args : CommandlineArgs) :
    (wm.areWeTheKing ourPID = true →
      (wm.ProposeCommandline ourPID args).1.ShouldCreateWindow = true ∧
      (wm.ProposeCommandline ourPID args).2.any Action.isMonarchPropose = false) ∧
    (wm.areWeTheKing ourPID = false →
      (wm.ProposeCommandline ourPID args).1.ShouldCreateWindow =
        wm.monarch.propose args) := by
  cases hK : wm.areWeTheKing ourPID <;>
    cases hP : wm.monarch.propose args <;>
      simp [WindowManager.ProposeCommandline, WindowManager.ShouldCreateWindow,
            WindowManager.createOurPeasant, Action.isMonarchPropose, hK, hP]

/-- Witness for C1 at a concrete king process (pid 5 connected to a Monarch
owned by pid 5). -/
theorem C1_proposeCommandline_decision_witness :
    (wmKing.ProposeCommandline 5 argsA).1.ShouldCreateWindow = true ∧
    (wmKing.ProposeCommandline 5 argsA).2.any Action.isMonarchPropose = false :=
  (C1_proposeCommandline_decision wmKing 5 argsA).1 rfl

/-- C2: `_areWeTheKing` returns `true` exactly when our pid equals the pid the
connected Monarch reports, and after an election (`_electionNight2020`) the
kingship reported is recomputed from the new connection's pid, whatever the
prior state of the WindowManager was (the prior connection does not occur in
the right-hand side). -/
theorem C2_areWeTheKing_fresh (wm : WindowManager) (ourPID : Nat)
    (newConn : MonarchConn) :
    (wm.areWeTheKing ourPID = true ↔ ourPID = wm.monarch.pid) ∧
    (wm.electionNight2020 ourPID newConn).2.1 = (ourPID == newConn.pid) := by
  constructor
  · simp [WindowManager.areWeTheKing]
  · simp [WindowManager.electionNight2020, WindowManager.createMonarchAndCallbacks,
          WindowManager.createMonarch, WindowManager.areWeTheKing]

/-- Witness for C2 at a concrete subject process (pid 5 connected to a Monarch
owned by pid 9) that reconnects to a Monarch owned by pid 5. -/
theorem C2_areWeTheKing_fresh_witness :
    (wmSubject.areWeTheKing 5 = true ↔ 5 = wmSubject.monarch.pid) ∧
    (wmSubject.electionNight2020 5 connKing).2.1 = (5 == connKing.pid) :=
  C2_areWeTheKing_fresh wmSubject 5 connKing

/-- C7: on destruction the registration is revoked first, then the interrupt is
signalled, then the thread is joined; the join step happens exactly when the
thread is joinable (a no-op otherwise); and the registration token is zeroed. -/
theorem C7_destruct_order (wm : WindowManager) :
    wm.destruct.2.head? = some Action.coRevokeClassObject ∧
    wm.destruct.2 =
      [Action.coRevokeClassObject, Action.setInterruptEvent] ++
        (if wm.electionThreadJoinable then [Action.joinThread] else []) ∧
    (Action.joinThread ∈ wm.destruct.2 ↔ wm.electionThreadJoinable = true) ∧
    wm.destruct.1.registrationHostClass = 0 := by
  cases hJ : wm.electionThreadJoinable <;>
    simp [WindowManager.destruct, hJ]

/-- Witness for C7 at a concrete WindowManager whose watcher thread never ran:
the join step is skipped. -/
theorem C7_destruct_order_witness :
    wmSubject.destruct.2.head? = some Action.coRevokeClassObject ∧
    wmSubject.destruct.2 =
      [Action.coRevokeClassObject, Action.setInterruptEvent] ++
        (if wmSubject.electionThreadJoinable then [Action.joinThread] else []) ∧
    (Action.joinThread ∈ wmSubject.destruct.2 ↔
      wmSubject.electionThreadJoinable = true) ∧
    wmSubject.destruct.1.registrationHostClass = 0 :=
  C7_destruct_order wmSubject

/-- C10: when `OpenProcess` fails to produce a handle for the monarch's pid,
the null handle is passed to the composite wait unchecked; the wait then fails
with `WAIT_FAILED`, which lands in the default branch: the error is logged and
the process terminates, with no election (no reconnect, no `AddPeasant`). -/
theorem C10_null_handle_fatal (wm : WindowManager) (ourPID : Nat) (sig : Nat)
    (newConn : MonarchConn) :
    (wm.waitOnMonarchIteration ourPID false sig newConn).1 =
      WatcherOutcome.processExit ∧
    (wm.waitOnMonarchIteration ourPID false sig newConn).2 =
      [Action.openProcess wm.monarch.pid, Action.logWaitError WAIT_FAILED,
       Action.exitProcess] ∧
    Action.createMonarch ∉ (wm.waitOnMonarchIteration ourPID false sig newConn).2 ∧
    Action.addPeasant ∉ (wm.waitOnMonarchIteration ourPID false sig newConn).2 := by
  simp [WindowManager.waitOnMonarchIteration, openProcess, osWaitResult,
        WAIT_OBJECT_0, WAIT_TIMEOUT, WAIT_FAILED]

/-- A WindowManager (for a process with pid 5) connected to `connYes`: a
subject whose Monarch answers `true` to proposals. -/
def wmSubjectYes : WindowManager :=
  { monarch := connYes, shouldCreateWindow := false, hasPeasant := false,
    electionThreadJoinable := false, registrationHostClass := 7 }

/-- C4: whenever `ProposeCommandline`'s decision is "create", the local Peasant
is instantiated and registered with the Monarch via `AddPeasant`, the election
watcher thread is started exactly when the process is not king, and the final
action is `ExecuteCommandline` with the original args. -/
theorem C4_create_path (wm : WindowManager) (ourPID : Nat) (args : CommandlineArgs)
    (h : (wm.ProposeCommandline ourPID args).1.shouldCreateWindow = true) :
    (wm.ProposeCommandline ourPID args).1.hasPeasant = true ∧
    Action.createPeasant ∈ (wm.ProposeCommandline ourPID args).2 ∧
    Action.addPeasant ∈ (wm.ProposeCommandline ourPID args).2 ∧
    (Action.startElectionThread ∈ (wm.ProposeCommandline ourPID args).2 ↔
      wm.areWeTheKing ourPID = false) ∧
    (wm.ProposeCommandline ourPID args).2.getLast? =
      some (Action.executeCommandline args) := by
  cases hK : wm.areWeTheKing ourPID <;>
    cases hP : wm.monarch.propose args <;>
      simp [WindowManager.ProposeCommandline, WindowManager.createOurPeasant,
            hK, hP] at h ⊢

/-- Witness for C4 at a concrete non-king subject whose Monarch answers
"create". -/
theorem C4_create_path_witness :
    (wmSubjectYes.ProposeCommandline 5 argsA).1.hasPeasant = true ∧
    Action.createPeasant ∈ (wmSubjectYes.ProposeCommandline 5 argsA).2 ∧
    Action.addPeasant ∈ (wmSubjectYes.ProposeCommandline 5 argsA).2 ∧
    (Action.startElectionThread ∈ (wmSubjectYes.ProposeCommandline 5 argsA).2 ↔
      wmSubjectYes.areWeTheKing 5 = false) ∧
    (wmSubjectYes.ProposeCommandline 5 argsA).2.getLast? =
      some (Action.executeCommandline argsA) :=
  C4_create_path wmSubjectYes 5 argsA rfl

/-- C9: whenever `ProposeCommandline`'s decision is "do not create", the only
state change is the cached decision flag; the trace is just the delegation to
the Monarch — no peasant creation, no watcher thread, no `ExecuteCommandline`. -/
theorem C9_no_create_frame (wm : WindowManager) (ourPID : Nat)
    (args : CommandlineArgs)
    (h : (wm.ProposeCommandline ourPID args).1.shouldCreateWindow = false) :
    (wm.ProposeCommandline ourPID args).1 = { wm with shouldCreateWindow := false } ∧
    (wm.ProposeCommandline ourPID args).2 = [Action.monarchPropose args false] ∧
    Action.createPeasant ∉ (wm.ProposeCommandline ourPID args).2 ∧
    Action.startElectionThread ∉ (wm.ProposeCommandline ourPID args).2 ∧
    (wm.ProposeCommandline ourPID args).2.any Action.isExecuteCommandline = false := by
  cases hK : wm.areWeTheKing ourPID <;>
    cases hP : wm.monarch.propose args <;>
      simp [WindowManager.ProposeCommandline, WindowManager.createOurPeasant,
            Action.isExecuteCommandline, hK, hP] at h ⊢

/-- Witness for C9 at a concrete non-king subject whose Monarch answers "do not
create". -/
theorem C9_no_create_frame_witness :
    (wmSubject.ProposeCommandline 5 argsA).1 =
      { wmSubject with shouldCreateWindow := false } ∧
    (wmSubject.ProposeCommandline 5 argsA).2 =
      [Action.monarchPropose argsA false] ∧
    Action.createPeasant ∉ (wmSubject.ProposeCommandline 5 argsA).2 ∧
    Action.startElectionThread ∉ (wmSubject.ProposeCommandline 5 argsA).2 ∧
    (wmSubject.ProposeCommandline 5 argsA).2.any Action.isExecuteCommandline = false :=
  C9_no_create_frame wmSubject 5 argsA rfl

/-- C8 counterexample: at a concrete construction (pid 5, connection owned by
pid 5, token 7) the construction trace contains no revocation at all, so the
claimed first step "revoke any stale self-registration" does not happen. -/
theorem C8_construct_no_revoke_counterexample :
    Action.coRevokeClassObject ∉ (WindowManager.construct 5 connKing 7).2 := by
  decide

/-- C8 amended: on construction the sequence of steps is: create the
wait-interrupt event, then register this process as a COM server for the
Monarch class, then connect to obtain a Monarch handle, then compute kingship
by comparing process identities (logged in the connection trace record, and
deciding whether the `FindTargetWindowRequested` subscription is wired); no
stale self-registration is revoked during construction. -/
theorem C8_construct_sequence (ourPID hostClass : Nat) (conn : MonarchConn) :
    (WindowManager.construct ourPID conn hostClass).2 =
      [Action.createInterruptEvent, Action.coRegisterClassObject,
       Action.createMonarch,
       Action.traceConnected conn.pid (ourPID == conn.pid)] ++
      (if ourPID == conn.pid then [Action.wireFindTargetWindow] else []) ∧
    Action.coRevokeClassObject ∉ (WindowManager.construct ourPID conn hostClass).2 ∧
    (WindowManager.construct ourPID conn hostClass).1.monarch = conn := by
  cases hK : (ourPID == conn.pid) <;>
    simp [WindowManager.construct, WindowManager.createMonarchAndCallbacks,
          WindowManager.createMonarch, WindowManager.areWeTheKing, hK]

/-- Every iteration of the watcher loop begins by opening a handle to the pid
of the currently connected monarch. -/
theorem iteration_trace_head (wm : WindowManager) (ourPID : Nat) (opens : Bool)
    (sig : Nat) (conn : MonarchConn) :
    (wm.waitOnMonarchIteration ourPID opens sig conn).2.head? =
      some (Action.openProcess wm.monarch.pid) := by
  simp only [WindowManager.waitOnMonarchIteration]
  split
  · simp
  · split
    · simp
    · split <;> simp

/-- C3: on observing the monarch's death (wait index 0), the watcher logs the
event, reconnects via the construction sequence (`_createMonarchAndCallbacks`),
re-registers the peasant via `AddPeasant`, and re-evaluates kingship: if now
king the `FindTargetWindowRequested` subscription is wired and the thread
exits; if still not king the loop continues with the new connection and the
next iteration derives the liveness handle from the new coordinator's pid. -/
theorem C3_election_on_monarch_death (wm : WindowManager) (ourPID : Nat)
    (newConn : MonarchConn) :
    (wm.waitOnMonarchIteration ourPID true 0 newConn).2 =
      [Action.openProcess wm.monarch.pid, Action.logMonarchDied,
       Action.createMonarch,
       Action.traceConnected newConn.pid (ourPID == newConn.pid)] ++
      (if wm.hasPeasant then [Action.handleActivatePeasant] else []) ++
      (if ourPID == newConn.pid then [Action.wireFindTargetWindow] else []) ++
      [Action.addPeasant] ∧
    (ourPID = newConn.pid →
      (wm.waitOnMonarchIteration ourPID true 0 newConn).1 =
        WatcherOutcome.threadExit { wm with monarch := newConn } ∧
      Action.wireFindTargetWindow ∈
        (wm.waitOnMonarchIteration ourPID true 0 newConn).2) ∧
    (ourPID ≠ newConn.pid →
      (wm.waitOnMonarchIteration ourPID true 0 newConn).1 =
        WatcherOutcome.continueLoop { wm with monarch := newConn } ∧
      ∀ opens2 sig2 conn2,
        (WindowManager.waitOnMonarchIteration { wm with monarch := newConn }
            ourPID opens2 sig2 conn2).2.head? =
          some (Action.openProcess newConn.pid)) := by
  by_cases h : ourPID = newConn.pid
  · refine ⟨?_, fun _ => ⟨?_, ?_⟩, fun hn => absurd h hn⟩ <;>
      simp [WindowManager.waitOnMonarchIteration, openProcess, osWaitResult,
            WAIT_OBJECT_0, WindowManager.electionNight2020,
            WindowManager.createMonarchAndCallbacks, WindowManager.createMonarch,
            WindowManager.areWeTheKing, h]
  · refine ⟨?_, fun hk => absurd hk h, fun _ => ⟨?_, ?_⟩⟩
    · simp [WindowManager.waitOnMonarchIteration, openProcess, osWaitResult,
            WAIT_OBJECT_0, WindowManager.electionNight2020,
            WindowManager.createMonarchAndCallbacks, WindowManager.createMonarch,
            WindowManager.areWeTheKing, h]
    · simp [WindowManager.waitOnMonarchIteration, openProcess, osWaitResult,
            WAIT_OBJECT_0, WindowManager.electionNight2020,
            WindowManager.createMonarchAndCallbacks, WindowManager.createMonarch,
            WindowManager.areWeTheKing, h]
    · intro opens2 sig2 conn2
      exact iteration_trace_head { wm with monarch := newConn } ourPID opens2 sig2 conn2

/-- Witness for C3 at a concrete watcher (pid 5, peasant registered) whose
re-election connects it to a Monarch owned by pid 5: it becomes king, wires the
subscription, and the thread exits. -/
theorem C3_election_on_monarch_death_witness :
    (wmWatcher.waitOnMonarchIteration 5 true 0 connKing).1 =
      WatcherOutcome.threadExit { wmWatcher with monarch := connKing } ∧
    Action.wireFindTargetWindow ∈
      (wmWatcher.waitOnMonarchIteration 5 true 0 connKing).2 :=
  (C3_election_on_monarch_death wmWatcher 5 connKing).2.1 rfl

/-- C5: a single proposal starts at most one watcher thread, and starts one
exactly when the process is a non-king whose decision was "create"; under the
outcomes an INFINITE two-handle wait can produce, a watcher iteration exits the
thread exactly when the interrupt fired or the monarch died and this process
won the election; the interrupt exit performs no further action (its whole
trace is the handle derivation and the interrupt log). -/
theorem C5_watcher_lifecycle (wm : WindowManager) (ourPID : Nat)
    (args : CommandlineArgs) (w : Nat) (newConn : MonarchConn)
    (hw : InfiniteWaitOutcome w) :
    (wm.ProposeCommandline ourPID args).2.count Action.startElectionThread ≤ 1 ∧
    (Action.startElectionThread ∈ (wm.ProposeCommandline ourPID args).2 ↔
      (wm.areWeTheKing ourPID = false ∧
       (wm.ProposeCommandline ourPID args).1.shouldCreateWindow = true)) ∧
    ((wm.waitOnMonarchIteration ourPID true w newConn).1.isThreadExit = true ↔
      (w = WAIT_OBJECT_0 + 1 ∨ (w = WAIT_OBJECT_0 ∧ ourPID = newConn.pid))) ∧
    (wm.waitOnMonarchIteration ourPID true (WAIT_OBJECT_0 + 1) newConn).2 =
      [Action.openProcess wm.monarch.pid, Action.logWaitInterrupted] := by
  refine ⟨?_, ?_, ?_, ?_⟩
  · cases hK : wm.areWeTheKing ourPID <;>
      cases hP : wm.monarch.propose args <;>
        simp [WindowManager.ProposeCommandline, WindowManager.createOurPeasant,
              hK, hP, List.count_cons]
  · cases hK : wm.areWeTheKing ourPID <;>
      cases hP : wm.monarch.propose args <;>
        simp [WindowManager.ProposeCommandline, WindowManager.createOurPeasant,
              hK, hP]
  · rcases hw with rfl | rfl | rfl | rfl | rfl <;>
      by_cases h : ourPID = newConn.pid <;>
        simp [WindowManager.waitOnMonarchIteration, openProcess, osWaitResult,
              WindowManager.electionNight2020,
              WindowManager.createMonarchAndCallbacks, WindowManager.createMonarch,
              WindowManager.areWeTheKing, WatcherOutcome.isThreadExit,
              WAIT_OBJECT_0, WAIT_ABANDONED_0, WAIT_TIMEOUT, WAIT_FAILED, h]
  · simp [WindowManager.waitOnMonarchIteration, openProcess, osWaitResult,
          WAIT_OBJECT_0, WAIT_TIMEOUT]

/-- Witness for C5 at the interrupt outcome (wait index 1) of a concrete
watcher. -/
theorem C5_watcher_lifecycle_witness :
    (wmWatcher.ProposeCommandline 5 argsA).2.count Action.startElectionThread ≤ 1 ∧
    (Action.startElectionThread ∈ (wmWatcher.ProposeCommandline 5 argsA).2 ↔
      (wmWatcher.areWeTheKing 5 = false ∧
       (wmWatcher.ProposeCommandline 5 argsA).1.shouldCreateWindow = true)) ∧
    ((wmWatcher.waitOnMonarchIteration 5 true 1 connYes).1.isThreadExit = true ↔
      (1 = WAIT_OBJECT_0 + 1 ∨ (1 = WAIT_OBJECT_0 ∧ 5 = connYes.pid))) ∧
    (wmWatcher.waitOnMonarchIteration 5 true (WAIT_OBJECT_0 + 1) connYes).2 =
      [Action.openProcess wmWatcher.monarch.pid, Action.logWaitInterrupted] :=
  C5_watcher_lifecycle wmWatcher 5 argsA 1 connYes (Or.inr (Or.inl rfl))

/-- C6: any wait outcome an INFINITE two-handle wait can produce other than the
two normal completions (index 0: monarch handle, index 1: interrupt) falls into
the default branch: the error is logged and the process terminates immediately,
with no retry and no further actions. -/
theorem C6_unexpected_wait_fatal (wm : WindowManager) (ourPID : Nat) (w : Nat)
    (newConn : MonarchConn) (hw : InfiniteWaitOutcome w)
    (h0 : w ≠ WAIT_OBJECT_0) (h1 : w ≠ WAIT_OBJECT_0 + 1) :
    (wm.waitOnMonarchIteration ourPID true w newConn).1 =
      WatcherOutcome.processExit ∧
    (wm.waitOnMonarchIteration ourPID true w newConn).2 =
      [Action.openProcess wm.monarch.pid, Action.logWaitError w,
       Action.exitProcess] := by
  rcases hw with rfl | rfl | rfl | rfl | rfl
  · exact absurd rfl h0
  · exact absurd rfl h1
  · simp [WindowManager.waitOnMonarchIteration, openProcess, osWaitResult,
          WAIT_OBJECT_0, WAIT_ABANDONED_0, WAIT_TIMEOUT]
  · simp [WindowManager.waitOnMonarchIteration, openProcess, osWaitResult,
          WAIT_OBJECT_0, WAIT_ABANDONED_0, WAIT_TIMEOUT]
  · simp [WindowManager.waitOnMonarchIteration, openProcess, osWaitResult,
          WAIT_OBJECT_0, WAIT_TIMEOUT, WAIT_FAILED]

/-- Witness for C6 at the `WAIT_FAILED` outcome of a concrete watcher. -/
theorem C6_unexpected_wait_fatal_witness :
    (wmWatcher.waitOnMonarchIteration 5 true WAIT_FAILED connYes).1 =
      WatcherOutcome.processExit ∧
    (wmWatcher.waitOnMonarchIteration 5 true WAIT_FAILED connYes).2 =
      [Action.openProcess wmWatcher.monarch.pid, Action.logWaitError WAIT_FAILED,
       Action.exitProcess] :=
  C6_unexpected_wait_fatal wmWatcher 5 WAIT_FAILED connYes
    (Or.inr (Or.inr (Or.inr (Or.inr rfl)))) (by decide) (by decide)

end Remoting
